import Mathlib

/-!
Shallow embedding of the CareerCompass job-application tracker
(`server/storage.ts`, `server/routes.ts`, `shared/schema.ts`).

Modelling conventions:
* timestamps are `Nat` (milliseconds since epoch, as `Date.getTime()`);
* a JS value that may be `null` or `undefined` is an `Option`
  (the code never distinguishes the two: `x || null` and spreads conflate them);
* `MemStorage`'s four `Map`s are association lists `List (Nat × α)` with
  JS-`Map` semantics (`set` replaces in place or appends, `delete` removes);
* a `Partial<T>` object is a structure of `Option` fields where `some v`
  means the key is present with value `v`;
* `PostgresStorage` row effects are modelled as pure functions on the row
  (the net effect of the generated SQL `INSERT`/`UPDATE` on the stored row).
-/

namespace CareerCompass

/-- `shared/schema.ts` `users.$inferSelect` (runtime shape of a stored user). -/
structure User where
  id : Nat
  username : String
  password : String
  fullName : Option String
  email : Option String
  skills : Option (List String)
  createdAt : Nat
deriving DecidableEq

/-- `shared/schema.ts` `jobApplications.$inferSelect`.  `status` is declared
`notNull` in the schema, but `MemStorage.createJobApplication` spreads the
insert payload without defaulting it, so the runtime field can be `undefined`;
we therefore model it as `Option String`. -/
structure JobApplication where
  id : Nat
  userId : Nat
  company : String
  position : String
  location : Option String
  salary : Option String
  jobType : Option String
  workMode : Option String
  description : Option String
  notes : Option String
  status : Option String
  resumeId : Option Nat
  coverId : Option Nat
  url : Option String
  contactInfo : Option String
  appliedDate : Nat
  updatedAt : Nat
deriving DecidableEq

/-- `shared/schema.ts` `documents.$inferSelect`. -/
structure Document where
  id : Nat
  userId : Nat
  name : String
  type : String
  description : Option String
  content : String
  usageCount : Option Nat
  createdAt : Nat
  updatedAt : Nat
deriving DecidableEq

/-- `shared/schema.ts` `interviews.$inferSelect`.  `completed` has a schema
default but `MemStorage.createInterview` does not apply it, so it is an
`Option Bool` at runtime. -/
structure Interview where
  id : Nat
  userId : Nat
  jobApplicationId : Nat
  title : String
  date : Nat
  notes : Option String
  completed : Option Bool
  feedback : Option String
deriving DecidableEq

/-- `InsertUser = z.infer<typeof insertUserSchema>` (username/password
required, the rest optional). -/
structure InsertUser where
  username : String
  password : String
  fullName : Option String := none
  email : Option String := none
  skills : Option (List String) := none
deriving DecidableEq

/-- `InsertJobApplication`: `createInsertSchema(jobApplications).omit({id,
updatedAt})`.  Columns with defaults (`status`, `appliedDate`) are optional;
nullable columns are optional; unknown keys (e.g. a client `updatedAt`) are
stripped by the zod parse. -/
structure InsertJobApplication where
  userId : Nat
  company : String
  position : String
  location : Option String := none
  salary : Option String := none
  jobType : Option String := none
  workMode : Option String := none
  description : Option String := none
  notes : Option String := none
  status : Option String := none
  resumeId : Option Nat := none
  coverId : Option Nat := none
  url : Option String := none
  contactInfo : Option String := none
  appliedDate : Option Nat := none
deriving DecidableEq

/-- `InsertDocument`: `createInsertSchema(documents).omit({id, usageCount,
updatedAt})`; `createdAt` stays in the schema (optional) but is overridden by
both storage implementations. -/
structure InsertDocument where
  userId : Nat
  name : String
  type : String
  description : Option String := none
  content : String
  createdAt : Option Nat := none
deriving DecidableEq

/-- `InsertInterview`: `createInsertSchema(interviews).omit({id})`. -/
structure InsertInterview where
  userId : Nat
  jobApplicationId : Nat
  title : String
  date : Nat
  notes : Option String := none
  completed : Option Bool := none
  feedback : Option String := none
deriving DecidableEq

/-- `Partial<JobApplication>`: the object handed to `updateJobApplication`
(the PATCH route passes `req.body` through unvalidated).  `some v` means the
key is present. -/
structure UpdateJobApplication where
  id : Option Nat := none
  userId : Option Nat := none
  company : Option String := none
  position : Option String := none
  location : Option (Option String) := none
  salary : Option (Option String) := none
  jobType : Option (Option String) := none
  workMode : Option (Option String) := none
  description : Option (Option String) := none
  notes : Option (Option String) := none
  status : Option String := none
  resumeId : Option (Option Nat) := none
  coverId : Option (Option Nat) := none
  url : Option (Option String) := none
  contactInfo : Option (Option String) := none
  appliedDate : Option Nat := none
  updatedAt : Option Nat := none
deriving DecidableEq

/-- `Partial<Document>`. -/
structure UpdateDocument where
  id : Option Nat := none
  userId : Option Nat := none
  name : Option String := none
  type : Option String := none
  description : Option (Option String) := none
  content : Option String := none
  usageCount : Option (Option Nat) := none
  createdAt : Option Nat := none
  updatedAt : Option Nat := none
deriving DecidableEq

/-- `Partial<Interview>`. -/
structure UpdateInterview where
  id : Option Nat := none
  userId : Option Nat := none
  jobApplicationId : Option Nat := none
  title : Option String := none
  date : Option Nat := none
  notes : Option (Option String) := none
  completed : Option (Option Bool) := none
  feedback : Option (Option String) := none
deriving DecidableEq

/-- JS `x || null` on an optional string: `undefined`/`null` and the empty
string (falsy in JS) become `null`. -/
def jsOrNull : Option String → Option String
  | some s => if s = "" then none else some s
  | none => none

/-- JS `x || d` on an optional string with a string default. -/
def jsOrString (x : Option String) (d : String) : String :=
  match x with
  | some s => if s = "" then d else s
  | none => d

/-- `Map.get` on an association list. -/
def lookupEntry {α : Type} : List (Nat × α) → Nat → Option α
  | [], _ => none
  | (k', v') :: rest, k => if k' = k then some v' else lookupEntry rest k

/-- `Map.set` on an association list: replace in place if the key exists,
otherwise append (JS `Map` insertion-order semantics). -/
def setEntry {α : Type} : List (Nat × α) → Nat → α → List (Nat × α)
  | [], k, v => [(k, v)]
  | (k', v') :: rest, k, v =>
      if k' = k then (k, v) :: rest else (k', v') :: setEntry rest k v

/-- `Map.delete` on an association list. -/
def eraseEntry {α : Type} (entries : List (Nat × α)) (k : Nat) : List (Nat × α) :=
  entries.filter (fun p => !(p.1 == k))

/-- The mutable fields of `MemStorage`: the four maps and the four next-id
counters (all counters start at 1). -/
structure MemState where
  users : List (Nat × User) := []
  jobApplications : List (Nat × JobApplication) := []
  documents : List (Nat × Document) := []
  interviews : List (Nat × Interview) := []
  userId : Nat := 1
  jobApplicationId : Nat := 1
  documentId : Nat := 1
  interviewId : Nat := 1
deriving DecidableEq

/-- The state built by the `MemStorage` constructor. -/
def MemState.init : MemState := {}

/-- `MemStorage.createUser`. -/
def memCreateUser (now : Nat) (st : MemState) (insertUser : InsertUser) :
    MemState × User :=
  let id := st.userId
  let user : User := {
    id := id
    username := insertUser.username
    password := insertUser.password
    createdAt := now
    fullName := jsOrNull insertUser.fullName
    email := jsOrNull insertUser.email
    skills := insertUser.skills }
  ({ st with users := setEntry st.users id user, userId := id + 1 }, user)

/-- `MemStorage.getJobApplicationsByUserId`. -/
def getJobApplicationsByUserId (st : MemState) (userId : Nat) :
    List JobApplication :=
  (st.jobApplications.map Prod.snd).filter (fun a => a.userId == userId)

/-- `MemStorage.getJobApplicationById`. -/
def getJobApplicationById (st : MemState) (id : Nat) : Option JobApplication :=
  lookupEntry st.jobApplications id

/-- `MemStorage.createJobApplication`.  Note: every optional text field goes
through `x || null`, `appliedDate` defaults to `now`, `updatedAt := now`, but
`status`, `resumeId`, `coverId` are spread unchanged (no default applied). -/
def memCreateJobApplication (now : Nat) (st : MemState)
    (application : InsertJobApplication) : MemState × JobApplication :=
  let id := st.jobApplicationId
  let newApplication : JobApplication := {
    id := id
    userId := application.userId
    company := application.company
    position := application.position
    status := application.status
    resumeId := application.resumeId
    coverId := application.coverId
    url := jsOrNull application.url
    location := jsOrNull application.location
    salary := jsOrNull application.salary
    jobType := jsOrNull application.jobType
    workMode := jsOrNull application.workMode
    description := jsOrNull application.description
    notes := jsOrNull application.notes
    contactInfo := jsOrNull application.contactInfo
    appliedDate := application.appliedDate.getD now
    updatedAt := now }
  ({ st with jobApplications := setEntry st.jobApplications id newApplication,
             jobApplicationId := id + 1 }, newApplication)

/-- The object literal `{...application, ...update, updatedAt: new Date()}`
of `MemStorage.updateJobApplication`: every key present in the partial
(including `id` and `userId`) overrides the stored field, and `updatedAt` is
then set to the server time, overriding any client-supplied value. -/
def mergeJobApplication (now : Nat) (application : JobApplication)
    (update : UpdateJobApplication) : JobApplication :=
  { id := update.id.getD application.id
    userId := update.userId.getD application.userId
    company := update.company.getD application.company
    position := update.position.getD application.position
    location := update.location.getD application.location
    salary := update.salary.getD application.salary
    jobType := update.jobType.getD application.jobType
    workMode := update.workMode.getD application.workMode
    description := update.description.getD application.description
    notes := update.notes.getD application.notes
    status := match update.status with
      | some s => some s
      | none => application.status
    resumeId := update.resumeId.getD application.resumeId
    coverId := update.coverId.getD application.coverId
    url := update.url.getD application.url
    contactInfo := update.contactInfo.getD application.contactInfo
    appliedDate := update.appliedDate.getD application.appliedDate
    updatedAt := now }

/-- `MemStorage.updateJobApplication`. -/
def memUpdateJobApplication (now : Nat) (st : MemState) (id : Nat)
    (update : UpdateJobApplication) :
    Except String (MemState × JobApplication) :=
  match lookupEntry st.jobApplications id with
  | none => .error "Job application not found"
  | some application =>
    let updatedApplication := mergeJobApplication now application update
    .ok ({ st with jobApplications :=
             setEntry st.jobApplications id updatedApplication },
         updatedApplication)

/-- `MemStorage.deleteJobApplication` — deletes only from the applications
map; referencing interviews are left untouched. -/
def memDeleteJobApplication (st : MemState) (id : Nat) : MemState :=
  { st with jobApplications := eraseEntry st.jobApplications id }

/-- `MemStorage.getDocumentsByUserId`. -/
def getDocumentsByUserId (st : MemState) (userId : Nat) : List Document :=
  (st.documents.map Prod.snd).filter (fun d => d.userId == userId)

/-- `MemStorage.getDocumentById`. -/
def getDocumentById (st : MemState) (id : Nat) : Option Document :=
  lookupEntry st.documents id

/-- `MemStorage.createDocument`. -/
def memCreateDocument (now : Nat) (st : MemState) (document : InsertDocument) :
    MemState × Document :=
  let id := st.documentId
  let newDocument : Document := {
    id := id
    userId := document.userId
    name := document.name
    type := document.type
    description := document.description
    content := document.content
    usageCount := some 0
    createdAt := now
    updatedAt := now }
  ({ st with documents := setEntry st.documents id newDocument,
             documentId := id + 1 }, newDocument)

/-- The object literal `{...document, ...update, updatedAt: new Date()}` of
`MemStorage.updateDocument`. -/
def mergeDocument (now : Nat) (document : Document) (update : UpdateDocument) :
    Document :=
  { id := update.id.getD document.id
    userId := update.userId.getD document.userId
    name := update.name.getD document.name
    type := update.type.getD document.type
    description := update.description.getD document.description
    content := update.content.getD document.content
    usageCount := update.usageCount.getD document.usageCount
    createdAt := update.createdAt.getD document.createdAt
    updatedAt := now }

/-- `MemStorage.updateDocument`. -/
def memUpdateDocument (now : Nat) (st : MemState) (id : Nat)
    (update : UpdateDocument) : Except String (MemState × Document) :=
  match lookupEntry st.documents id with
  | none => .error "Document not found"
  | some document =>
    let updatedDocument := mergeDocument now document update
    .ok ({ st with documents := setEntry st.documents id updatedDocument },
         updatedDocument)

/-- `MemStorage.deleteDocument`. -/
def memDeleteDocument (st : MemState) (id : Nat) : MemState :=
  { st with documents := eraseEntry st.documents id }

/-- `MemStorage.getInterviewsByUserId`. -/
def getInterviewsByUserId (st : MemState) (userId : Nat) : List Interview :=
  (st.interviews.map Prod.snd).filter (fun i => i.userId == userId)

/-- `MemStorage.getInterviewById`. -/
def getInterviewById (st : MemState) (id : Nat) : Option Interview :=
  lookupEntry st.interviews id

/-- `MemStorage.createInterview`: `{...interview, id}` — no timestamps, no
defaults applied. -/
def memCreateInterview (st : MemState) (interview : InsertInterview) :
    MemState × Interview :=
  let id := st.interviewId
  let newInterview : Interview := {
    id := id
    userId := interview.userId
    jobApplicationId := interview.jobApplicationId
    title := interview.title
    date := interview.date
    notes := interview.notes
    completed := interview.completed
    feedback := interview.feedback }
  ({ st with interviews := setEntry st.interviews id newInterview,
             interviewId := id + 1 }, newInterview)

/-- The object literal `{...interview, ...update}` of
`MemStorage.updateInterview` — a pure merge, no timestamp field exists. -/
def mergeInterview (interview : Interview) (update : UpdateInterview) :
    Interview :=
  { id := update.id.getD interview.id
    userId := update.userId.getD interview.userId
    jobApplicationId := update.jobApplicationId.getD interview.jobApplicationId
    title := update.title.getD interview.title
    date := update.date.getD interview.date
    notes := update.notes.getD interview.notes
    completed := update.completed.getD interview.completed
    feedback := update.feedback.getD interview.feedback }

/-- `MemStorage.updateInterview`. -/
def memUpdateInterview (st : MemState) (id : Nat) (update : UpdateInterview) :
    Except String (MemState × Interview) :=
  match lookupEntry st.interviews id with
  | none => .error "Interview not found"
  | some interview =>
    let updatedInterview := mergeInterview interview update
    .ok ({ st with interviews := setEntry st.interviews id updatedInterview },
         updatedInterview)

/-- `MemStorage.deleteInterview`. -/
def memDeleteInterview (st : MemState) (id : Nat) : MemState :=
  { st with interviews := eraseEntry st.interviews id }

/-! ## PostgresStorage row effects

`PostgresStorage` builds its SQL dynamically; each function below is the net
effect of the generated statement on the stored row.  The `id` of an
`INSERT` comes from the `SERIAL` sequence and is passed explicitly. -/

/-- `PostgresStorage.createJobApplication`: the `INSERT` column list is
(user_id, company, position, location, salary, job_type, work_mode,
description, url, status, resume_id, cover_id, contact_info, applied_date,
updated_at).  `notes` is not inserted, so the stored row has `notes = NULL`;
`status` gets `application.status || 'applied'`. -/
def pgCreateJobApplicationRow (now : Nat) (id : Nat)
    (application : InsertJobApplication) : JobApplication :=
  { id := id
    userId := application.userId
    company := application.company
    position := application.position
    location := application.location
    salary := application.salary
    jobType := application.jobType
    workMode := application.workMode
    description := application.description
    url := application.url
    status := some (jsOrString application.status "applied")
    resumeId := application.resumeId
    coverId := application.coverId
    contactInfo := application.contactInfo
    appliedDate := application.appliedDate.getD now
    updatedAt := now
    notes := none }

/-- `PostgresStorage.updateJobApplication`: the dynamically built `SET`
clause covers company, position, location, salary, job_type, work_mode,
description, url, status, resume_id, cover_id, contact_info, applied_date,
and always updated_at.  `notes`, `user_id` and `id` are never in the `SET`
list, so those columns keep their stored values. -/
def pgUpdateJobApplicationRow (now : Nat) (row : JobApplication)
    (update : UpdateJobApplication) : JobApplication :=
  { row with
    company := update.company.getD row.company
    position := update.position.getD row.position
    location := update.location.getD row.location
    salary := update.salary.getD row.salary
    jobType := update.jobType.getD row.jobType
    workMode := update.workMode.getD row.workMode
    description := update.description.getD row.description
    url := update.url.getD row.url
    status := match update.status with
      | some s => some s
      | none => row.status
    resumeId := update.resumeId.getD row.resumeId
    coverId := update.coverId.getD row.coverId
    contactInfo := update.contactInfo.getD row.contactInfo
    appliedDate := update.appliedDate.getD row.appliedDate
    updatedAt := now }

/-- `PostgresStorage.createDocument` row effect. -/
def pgCreateDocumentRow (now : Nat) (id : Nat) (document : InsertDocument) :
    Document :=
  { id := id
    userId := document.userId
    name := document.name
    type := document.type
    description := document.description
    content := document.content
    usageCount := some 0
    createdAt := now
    updatedAt := now }

/-- `PostgresStorage.updateDocument`: `SET` covers name, type, description,
content, usage_count, and always updated_at. -/
def pgUpdateDocumentRow (now : Nat) (row : Document) (update : UpdateDocument) :
    Document :=
  { row with
    name := update.name.getD row.name
    type := update.type.getD row.type
    description := update.description.getD row.description
    content := update.content.getD row.content
    usageCount := update.usageCount.getD row.usageCount
    updatedAt := now }

/-! ## Route handlers (`server/routes.ts`)

Each authenticated handler is a function of the store state, the
authenticated user's id, the target id and the request body.  The `catch`
branch that maps a thrown storage error to a 500 is the `serverError`
constructor. -/

inductive RouteResult (α : Type) where
  | ok (value : α)
  | notFound
  | forbidden
  | serverError
deriving DecidableEq

/-- HTTP status of a route result, given the handler's success code
(200 for PATCH, 204 for DELETE). -/
def RouteResult.statusCode {α : Type} (okCode : Nat) : RouteResult α → Nat
  | .ok _ => okCode
  | .notFound => 404
  | .forbidden => 403
  | .serverError => 500

/-- `app.patch("/api/applications/:id")`: look up by id (404 if absent), then
compare `application.userId` with the session user (403 if different), then
pass `req.body` to the store unfiltered. -/
def patchApplicationRoute (now : Nat) (st : MemState) (sessionUserId id : Nat)
    (body : UpdateJobApplication) : RouteResult JobApplication × MemState :=
  match getJobApplicationById st id with
  | none => (.notFound, st)
  | some application =>
    if application.userId ≠ sessionUserId then (.forbidden, st)
    else
      match memUpdateJobApplication now st id body with
      | .ok (st', updated) => (.ok updated, st')
      | .error _ => (.serverError, st)

/-- `app.delete("/api/applications/:id")`. -/
def deleteApplicationRoute (st : MemState) (sessionUserId id : Nat) :
    RouteResult Unit × MemState :=
  match getJobApplicationById st id with
  | none => (.notFound, st)
  | some application =>
    if application.userId ≠ sessionUserId then (.forbidden, st)
    else (.ok (), memDeleteJobApplication st id)

/-- `app.patch("/api/documents/:id")`. -/
def patchDocumentRoute (now : Nat) (st : MemState) (sessionUserId id : Nat)
    (body : UpdateDocument) : RouteResult Document × MemState :=
  match getDocumentById st id with
  | none => (.notFound, st)
  | some document =>
    if document.userId ≠ sessionUserId then (.forbidden, st)
    else
      match memUpdateDocument now st id body with
      | .ok (st', updated) => (.ok updated, st')
      | .error _ => (.serverError, st)

/-- `app.delete("/api/documents/:id")`. -/
def deleteDocumentRoute (st : MemState) (sessionUserId id : Nat) :
    RouteResult Unit × MemState :=
  match getDocumentById st id with
  | none => (.notFound, st)
  | some document =>
    if document.userId ≠ sessionUserId then (.forbidden, st)
    else (.ok (), memDeleteDocument st id)

/-- `app.patch("/api/interviews/:id")`. -/
def patchInterviewRoute (st : MemState) (sessionUserId id : Nat)
    (body : UpdateInterview) : RouteResult Interview × MemState :=
  match getInterviewById st id with
  | none => (.notFound, st)
  | some interview =>
    if interview.userId ≠ sessionUserId then (.forbidden, st)
    else
      match memUpdateInterview st id body with
      | .ok (st', updated) => (.ok updated, st')
      | .error _ => (.serverError, st)

/-- `app.delete("/api/interviews/:id")`. -/
def deleteInterviewRoute (st : MemState) (sessionUserId id : Nat) :
    RouteResult Unit × MemState :=
  match getInterviewById st id with
  | none => (.notFound, st)
  | some interview =>
    if interview.userId ≠ sessionUserId then (.forbidden, st)
    else (.ok (), memDeleteInterview st id)

/-! ## Creation-payload validation (zod) -/

/-- A JSON value as it can appear in a request body field. -/
inductive JsValue where
  | str (s : String)
  | num (n : Int)
  | boolean (b : Bool)
  | null
deriving DecidableEq

/-- The `status` field of `insertJobApplicationSchema`: drizzle-zod turns the
`text("status").notNull().default("applied")` column into
`z.string().optional()`, so the parse accepts an absent key or any string and
rejects any non-string value.  No membership check against
applied/interview/offer/rejected exists anywhere in the schema. -/
def insertStatusFieldAccepts : Option JsValue → Bool
  | none => true
  | some (.str _) => true
  | some _ => false

/-! ## Statistics (`app.get("/api/stats")`) -/

/-- JS `Math.floor` on an exact rational. -/
def mathFloorQ (x : ℚ) : ℤ := x.floor

/-! ### Binary64 model for the responseRate pipeline

The handler computes `((interview + offer) / total) * 100` in JS numbers
(IEEE-754 binary64): the integer counts are exact (they are far below
`2^53`), the division and the multiplication are each correctly rounded to a
53-bit significand (round to nearest, ties to even), and `Math.round` then
takes the mathematically closest integer to the resulting double's exact
value, ties toward `+∞`.  The model below follows that pipeline exactly on
positive values in the normal range (the program's values — ratios in
`[0, 1]` scaled by 100 — are nowhere near overflow or subnormals).  A double
is carried as an exact pair `(m, e)` of significand and binary exponent with
value `m * 2 ^ e`. -/

/-- `⌊log2 n⌋` by structural recursion on a fuel bound (`fuel ≥ n`
suffices), so that it evaluates inside the kernel. -/
def log2Aux : Nat → Nat → Nat
  | 0, _ => 0
  | fuel + 1, n => if n ≤ 1 then 0 else log2Aux fuel (n / 2) + 1

/-- `⌊log2 n⌋` for `n ≥ 1`. -/
def natLog2 (n : Nat) : Nat := log2Aux n n

/-- Round the fraction `num / den` to the nearest integer, ties to even
(the IEEE-754 default rounding of a significand). -/
def roundNearestEven (num den : Nat) : Nat :=
  let q := num / den
  let r := num % den
  if 2 * r < den then q
  else if den < 2 * r then q + 1
  else if q % 2 = 0 then q else q + 1

/-- `⌊log2 (n / d)⌋` for `n, d ≥ 1`: the candidate `natLog2 n - natLog2 d`
is off by at most one; the comparison (written with truncated `Nat`
subtraction so exactly one power is nontrivial) decides which. -/
def ilog2Frac (n d : Nat) : Int :=
  let a := natLog2 n
  let b := natLog2 d
  if d * 2 ^ (a - b) ≤ n * 2 ^ (b - a) then (a : Int) - b else (a : Int) - b - 1

/-- Correctly round the positive rational `n / d` to a binary64 value
(53-bit significand, round to nearest, ties to even), returned as
`(m, e)` with value `m * 2 ^ e` and `2 ^ 52 ≤ m ≤ 2 ^ 53`. -/
def round64Frac (n d : Nat) : Nat × Int :=
  let e : Int := ilog2Frac n d - 52
  (roundNearestEven (n * 2 ^ (-e).toNat) (d * 2 ^ e.toNat), e)

/-- `Math.round` of the double `m * 2 ^ e` (`m, e ≥ 0` or `e < 0`): the
integer closest to the exact value, ties toward `+∞`, i.e. the exact
`⌊m * 2 ^ e + 1/2⌋`. -/
def jsMathRound64 (m : Nat) (e : Int) : Nat :=
  if 0 ≤ e then m * 2 ^ e.toNat
  else (2 * m + 2 ^ (-e).toNat) / 2 ^ ((-e).toNat + 1)

/-- The binary64 evaluation of `Math.round(((c) / t) * 100)` for counts
`c ≤ t`, `t ≥ 1`: divide (one rounding), multiply by 100 (one rounding),
then `Math.round`.  `c = 0` gives `+0` through the pipeline. -/
def jsResponseRate (c t : Nat) : Nat :=
  if c = 0 then 0
  else
    let x := round64Frac c t
    let y := round64Frac (100 * x.1 * 2 ^ x.2.toNat) (2 ^ (-x.2).toNat)
    jsMathRound64 y.1 y.2

/-- The `applicationsByStatus` object. -/
structure StatusCounts where
  applied : Nat
  interview : Nat
  offer : Nat
  rejected : Nat
deriving DecidableEq

/-- The JSON object returned by the stats endpoint. -/
structure DashboardStats where
  totalApplications : Nat
  interviewsScheduled : Nat
  responseRate : ℤ
  daysInSearch : ℤ
  applicationsByStatus : StatusCounts
deriving DecidableEq

/-- The body of the `/api/stats` handler, as a function of the caller's
applications and interviews. -/
def computeStats (now : Nat) (applications : List JobApplication)
    (interviews : List Interview) : DashboardStats :=
  { totalApplications := applications.length
    interviewsScheduled := interviews.length
    responseRate :=
      if applications.length > 0 then
        (jsResponseRate
          ((applications.filter (fun a => a.status == some "interview")).length +
            (applications.filter (fun a => a.status == some "offer")).length)
          applications.length : ℤ)
      else 0
    daysInSearch :=
      match applications.map (fun a => a.appliedDate) with
      | [] => 0
      | d :: ds =>
          mathFloorQ (((now : ℚ) - ((ds.foldl min d : Nat) : ℚ))
            / (1000 * 3600 * 24))
    applicationsByStatus := {
      applied := (applications.filter (fun a => a.status == some "applied")).length
      interview := (applications.filter (fun a => a.status == some "interview")).length
      offer := (applications.filter (fun a => a.status == some "offer")).length
      rejected := (applications.filter (fun a => a.status == some "rejected")).length } }

/-- `app.get("/api/stats")`: fetch the caller's applications and interviews,
then aggregate. -/
def statsRoute (now : Nat) (st : MemState) (sessionUserId : Nat) :
    DashboardStats :=
  computeStats now (getJobApplicationsByUserId st sessionUserId)
    (getInterviewsByUserId st sessionUserId)

/-! ## Operation sequences over the in-memory store -/

/-- One store-level operation (create/update/delete per entity kind, with the
server timestamp where the implementation reads the clock). -/
inductive Op where
  | createUser (now : Nat) (payload : InsertUser)
  | createApp (now : Nat) (payload : InsertJobApplication)
  | updateApp (now : Nat) (id : Nat) (update : UpdateJobApplication)
  | deleteApp (id : Nat)
  | createDoc (now : Nat) (payload : InsertDocument)
  | updateDoc (now : Nat) (id : Nat) (update : UpdateDocument)
  | deleteDoc (id : Nat)
  | createInt (payload : InsertInterview)
  | updateInt (id : Nat) (update : UpdateInterview)
  | deleteInt (id : Nat)
deriving DecidableEq

/-- Execute one operation on the store.  A failed update (missing id) throws
in the source and is caught by the route; the state is unchanged. -/
def execOp (st : MemState) : Op → MemState
  | .createUser now p => (memCreateUser now st p).1
  | .createApp now p => (memCreateJobApplication now st p).1
  | .updateApp now id u =>
      match memUpdateJobApplication now st id u with
      | .ok (st', _) => st'
      | .error _ => st
  | .deleteApp id => memDeleteJobApplication st id
  | .createDoc now p => (memCreateDocument now st p).1
  | .updateDoc now id u =>
      match memUpdateDocument now st id u with
      | .ok (st', _) => st'
      | .error _ => st
  | .deleteDoc id => memDeleteDocument st id
  | .createInt p => (memCreateInterview st p).1
  | .updateInt id u =>
      match memUpdateInterview st id u with
      | .ok (st', _) => st'
      | .error _ => st
  | .deleteInt id => memDeleteInterview st id

/-- Run a sequence of operations. -/
def runOps (st : MemState) : List Op → MemState
  | [] => st
  | op :: ops => runOps (execOp st op) ops

/-- The identifiers handed out by `createJobApplication` along a run
(each create returns the current counter value). -/
def appIdsAssigned (st : MemState) : List Op → List Nat
  | [] => []
  | op :: ops =>
    match op with
    | .createApp _ _ => st.jobApplicationId :: appIdsAssigned (execOp st op) ops
    | _ => appIdsAssigned (execOp st op) ops

/-- The identifiers handed out by `createDocument` along a run. -/
def docIdsAssigned (st : MemState) : List Op → List Nat
  | [] => []
  | op :: ops =>
    match op with
    | .createDoc _ _ => st.documentId :: docIdsAssigned (execOp st op) ops
    | _ => docIdsAssigned (execOp st op) ops

/-- The identifiers handed out by `createInterview` along a run. -/
def intIdsAssigned (st : MemState) : List Op → List Nat
  | [] => []
  | op :: ops =>
    match op with
    | .createInt _ => st.interviewId :: intIdsAssigned (execOp st op) ops
    | _ => intIdsAssigned (execOp st op) ops

/-- The identifiers handed out by `createUser` along a run. -/
def userIdsAssigned (st : MemState) : List Op → List Nat
  | [] => []
  | op :: ops =>
    match op with
    | .createUser _ _ => st.userId :: userIdsAssigned (execOp st op) ops
    | _ => userIdsAssigned (execOp st op) ops

/-- Whether an operation is a `createUser`. -/
def Op.isCreateUser : Op → Bool
  | .createUser _ _ => true
  | _ => false

/-- Whether an operation is a `createJobApplication`. -/
def Op.isCreateApp : Op → Bool
  | .createApp _ _ => true
  | _ => false

/-- Whether an operation is a `createDocument`. -/
def Op.isCreateDoc : Op → Bool
  | .createDoc _ _ => true
  | _ => false

/-- Whether an operation is a `createInterview`. -/
def Op.isCreateInt : Op → Bool
  | .createInt _ => true
  | _ => false

/-! ## Specification-side statistics formulas

These two definitions transcribe the spec's words (not the code): they are
compared with `computeStats` in the refinement theorem for the statistics
claim. -/

/-- Spec: `responseRate = round((countInterview + countOffer) /
totalApplications × 100)`, `0` when `totalApplications = 0` — the exact
mathematical formula the original claim states. -/
def specResponseRate (applications : List JobApplication) : ℤ :=
  if applications.length = 0 then 0
  else
    round ((((applications.countP (fun a => a.status == some "interview") +
      applications.countP (fun a => a.status == some "offer") : Nat) : ℚ) /
      (applications.length : ℚ)) * 100)

/-- The amended responseRate formula: `Math.round` of the binary64
evaluation of `((countInterview + countOffer) / totalApplications) * 100`,
`0` when `totalApplications = 0`.  It agrees with `specResponseRate` except
at exact half-boundary ratios whose double product falls on the other side
of the half (e.g. 29 of 200 gives 14 where the exact formula gives 15). -/
def specResponseRate64 (applications : List JobApplication) : ℤ :=
  if applications.length = 0 then 0
  else
    (jsResponseRate
      (applications.countP (fun a => a.status == some "interview") +
        applications.countP (fun a => a.status == some "offer"))
      applications.length : ℤ)

/-- Spec: `daysInSearch = floor((now − earliestAppliedDate) / 1 day)` with
`earliestAppliedDate` the minimum `appliedDate`; `0` with no applications. -/
def specDaysInSearch (now : Nat) (applications : List JobApplication) : ℤ :=
  match ((applications.map (fun a => a.appliedDate) : List Nat)).min? with
  | none => 0
  | some earliest => ⌊((now : ℚ) - ((earliest : Nat) : ℚ)) / 86400000⌋

/-! ## Concrete sample data for the closed theorems -/

/-- A minimal valid creation payload (required fields only, no status). -/
def insertAcme : InsertJobApplication :=
  { userId := 1, company := "Acme", position := "Engineer" }

/-- The same payload with an explicit valid status. -/
def insertAcmeApplied : InsertJobApplication :=
  { insertAcme with status := some "applied" }

/-- Store holding one application (id 1, owner 1, status "applied"). -/
def stOne : MemState :=
  (memCreateJobApplication 10 MemState.init insertAcmeApplied).1

/-- The stored application of `stOne`. -/
def appOne : JobApplication :=
  (memCreateJobApplication 10 MemState.init insertAcmeApplied).2

/-- A stored row that has a non-null notes column. -/
def rowNotes : JobApplication := { appOne with notes := some "old note" }

/-- An interview payload referencing application 1. -/
def insertScreen : InsertInterview :=
  { userId := 1, jobApplicationId := 1, title := "Phone screen", date := 30 }

/-- The interview stored after creating application 1 and then the
interview. -/
def ivOne : Interview :=
  (memCreateInterview (memCreateJobApplication 10 MemState.init
    insertAcmeApplied).1 insertScreen).2

/-- Create an application, schedule an interview for it, then delete the
application. -/
def opsDangling : List Op :=
  [Op.createApp 10 insertAcmeApplied, Op.createInt insertScreen,
   Op.deleteApp 1]

/-- The `i`-th of 200 applications owned by user 1: the first 29 have status
"interview", the rest "applied". -/
def app200 (i : Nat) : JobApplication :=
  { appOne with
    id := i
    status := if i ≤ 29 then some "interview" else some "applied" }

/-- A store holding those 200 applications (ids 1..200, all owned by
user 1): 29 of 200 puts the exact response ratio at the half boundary
14.5. -/
def st200 : MemState :=
  { MemState.init with
    jobApplications := (List.range 200).map (fun i => (i + 1, app200 (i + 1)))
    jobApplicationId := 201 }

/-- The record produced by updating `appOne` at time 30 with a partial whose
only key is a client-supplied `updatedAt` of 999. -/
def appOneUpd : JobApplication :=
  mergeJobApplication 30 appOne { updatedAt := some 999 }

/-- The store after that update. -/
def stOneUpd : MemState :=
  { stOne with jobApplications := setEntry stOne.jobApplications 1 appOneUpd }

/-! ## Helper lemmas -/

theorem lookupEntry_setEntry_self {α : Type} (l : List (Nat × α)) (k : Nat)
    (v : α) : lookupEntry (setEntry l k v) k = some v := by
  induction l with
  | nil => simp [setEntry, lookupEntry]
  | cons p rest ih =>
    obtain ⟨k', v'⟩ := p
    by_cases h : k' = k <;> simp [setEntry, lookupEntry, h, ih]

theorem lookupEntry_eraseEntry_self {α : Type} (l : List (Nat × α)) (k : Nat) :
    lookupEntry (eraseEntry l k) k = none := by
  induction l with
  | nil => simp [eraseEntry, lookupEntry]
  | cons p rest ih =>
    obtain ⟨k', v'⟩ := p
    by_cases h : k' = k <;>
      simp [eraseEntry, List.filter_cons, h, lookupEntry] <;>
      simpa [eraseEntry] using ih

theorem eraseEntry_of_lookupEntry_none {α : Type} (l : List (Nat × α))
    (k : Nat) (h : lookupEntry l k = none) : eraseEntry l k = l := by
  induction l with
  | nil => rfl
  | cons p rest ih =>
    obtain ⟨k', v'⟩ := p
    by_cases hk : k' = k
    · simp [lookupEntry, hk] at h
    · simp only [lookupEntry, hk, if_false] at h
      simp [eraseEntry, List.filter_cons, hk]
      simpa [eraseEntry] using ih h

theorem eraseEntry_idem {α : Type} (l : List (Nat × α)) (k : Nat) :
    eraseEntry (eraseEntry l k) k = eraseEntry l k :=
  eraseEntry_of_lookupEntry_none _ _ (lookupEntry_eraseEntry_self l k)

theorem memUpdateJobApplication_inv (now : Nat) (st : MemState) (id : Nat)
    (u : UpdateJobApplication) (st' : MemState) (r : JobApplication)
    (h : memUpdateJobApplication now st id u = .ok (st', r)) :
    ∃ app, lookupEntry st.jobApplications id = some app ∧
      r = mergeJobApplication now app u ∧
      st' = { st with jobApplications := setEntry st.jobApplications id r } := by
  unfold memUpdateJobApplication at h
  cases hl : lookupEntry st.jobApplications id <;> rw [hl] at h
  · exact absurd h (by simp)
  · simp only [Except.ok.injEq, Prod.mk.injEq] at h
    exact ⟨_, rfl, h.2.symm, by rw [← h.1, h.2]⟩

theorem memUpdateDocument_inv (now : Nat) (st : MemState) (id : Nat)
    (u : UpdateDocument) (st' : MemState) (r : Document)
    (h : memUpdateDocument now st id u = .ok (st', r)) :
    ∃ d, lookupEntry st.documents id = some d ∧
      r = mergeDocument now d u ∧
      st' = { st with documents := setEntry st.documents id r } := by
  unfold memUpdateDocument at h
  cases hl : lookupEntry st.documents id <;> rw [hl] at h
  · exact absurd h (by simp)
  · simp only [Except.ok.injEq, Prod.mk.injEq] at h
    exact ⟨_, rfl, h.2.symm, by rw [← h.1, h.2]⟩

theorem memUpdateInterview_inv (st : MemState) (id : Nat)
    (u : UpdateInterview) (st' : MemState) (r : Interview)
    (h : memUpdateInterview st id u = .ok (st', r)) :
    ∃ i, lookupEntry st.interviews id = some i ∧
      r = mergeInterview i u ∧
      st' = { st with interviews := setEntry st.interviews id r } := by
  unfold memUpdateInterview at h
  cases hl : lookupEntry st.interviews id <;> rw [hl] at h
  · exact absurd h (by simp)
  · simp only [Except.ok.injEq, Prod.mk.injEq] at h
    exact ⟨_, rfl, h.2.symm, by rw [← h.1, h.2]⟩

theorem execOp_jobApplicationId (st : MemState) (op : Op) :
    (execOp st op).jobApplicationId =
      st.jobApplicationId + cond op.isCreateApp 1 0 := by
  cases op <;> try rfl
  case updateApp now id u =>
    show (match memUpdateJobApplication now st id u with
      | .ok (st', _) => st'
      | .error _ => st).jobApplicationId = st.jobApplicationId
    cases hm : memUpdateJobApplication now st id u with
    | ok p =>
      obtain ⟨st2, r2⟩ := p
      obtain ⟨_, _, _, hst⟩ :=
        memUpdateJobApplication_inv now st id u st2 r2 hm
      rw [hst]
    | error e => rfl
  case updateDoc now id u =>
    show (match memUpdateDocument now st id u with
      | .ok (st', _) => st'
      | .error _ => st).jobApplicationId = st.jobApplicationId
    cases hm : memUpdateDocument now st id u with
    | ok p =>
      obtain ⟨st2, r2⟩ := p
      obtain ⟨_, _, _, hst⟩ :=
        memUpdateDocument_inv now st id u st2 r2 hm
      rw [hst]
    | error e => rfl
  case updateInt id u =>
    show (match memUpdateInterview st id u with
      | .ok (st', _) => st'
      | .error _ => st).jobApplicationId = st.jobApplicationId
    cases hm : memUpdateInterview st id u with
    | ok p =>
      obtain ⟨st2, r2⟩ := p
      obtain ⟨_, _, _, hst⟩ :=
        memUpdateInterview_inv st id u st2 r2 hm
      rw [hst]
    | error e => rfl

theorem execOp_documentId (st : MemState) (op : Op) :
    (execOp st op).documentId = st.documentId + cond op.isCreateDoc 1 0 := by
  cases op <;> try rfl
  case updateApp now id u =>
    show (match memUpdateJobApplication now st id u with
      | .ok (st', _) => st'
      | .error _ => st).documentId = st.documentId
    cases hm : memUpdateJobApplication now st id u with
    | ok p =>
      obtain ⟨st2, r2⟩ := p
      obtain ⟨_, _, _, hst⟩ :=
        memUpdateJobApplication_inv now st id u st2 r2 hm
      rw [hst]
    | error e => rfl
  case updateDoc now id u =>
    show (match memUpdateDocument now st id u with
      | .ok (st', _) => st'
      | .error _ => st).documentId = st.documentId
    cases hm : memUpdateDocument now st id u with
    | ok p =>
      obtain ⟨st2, r2⟩ := p
      obtain ⟨_, _, _, hst⟩ :=
        memUpdateDocument_inv now st id u st2 r2 hm
      rw [hst]
    | error e => rfl
  case updateInt id u =>
    show (match memUpdateInterview st id u with
      | .ok (st', _) => st'
      | .error _ => st).documentId = st.documentId
    cases hm : memUpdateInterview st id u with
    | ok p =>
      obtain ⟨st2, r2⟩ := p
      obtain ⟨_, _, _, hst⟩ :=
        memUpdateInterview_inv st id u st2 r2 hm
      rw [hst]
    | error e => rfl

theorem execOp_interviewId (st : MemState) (op : Op) :
    (execOp st op).interviewId = st.interviewId + cond op.isCreateInt 1 0 := by
  cases op <;> try rfl
  case updateApp now id u =>
    show (match memUpdateJobApplication now st id u with
      | .ok (st', _) => st'
      | .error _ => st).interviewId = st.interviewId
    cases hm : memUpdateJobApplication now st id u with
    | ok p =>
      obtain ⟨st2, r2⟩ := p
      obtain ⟨_, _, _, hst⟩ :=
        memUpdateJobApplication_inv now st id u st2 r2 hm
      rw [hst]
    | error e => rfl
  case updateDoc now id u =>
    show (match memUpdateDocument now st id u with
      | .ok (st', _) => st'
      | .error _ => st).interviewId = st.interviewId
    cases hm : memUpdateDocument now st id u with
    | ok p =>
      obtain ⟨st2, r2⟩ := p
      obtain ⟨_, _, _, hst⟩ :=
        memUpdateDocument_inv now st id u st2 r2 hm
      rw [hst]
    | error e => rfl
  case updateInt id u =>
    show (match memUpdateInterview st id u with
      | .ok (st', _) => st'
      | .error _ => st).interviewId = st.interviewId
    cases hm : memUpdateInterview st id u with
    | ok p =>
      obtain ⟨st2, r2⟩ := p
      obtain ⟨_, _, _, hst⟩ :=
        memUpdateInterview_inv st id u st2 r2 hm
      rw [hst]
    | error e => rfl

theorem execOp_userIdCounter (st : MemState) (op : Op) :
    (execOp st op).userId = st.userId + cond op.isCreateUser 1 0 := by
  cases op <;> try rfl
  case updateApp now id u =>
    show (match memUpdateJobApplication now st id u with
      | .ok (st', _) => st'
      | .error _ => st).userId = st.userId
    cases hm : memUpdateJobApplication now st id u with
    | ok p =>
      obtain ⟨st2, r2⟩ := p
      obtain ⟨_, _, _, hst⟩ :=
        memUpdateJobApplication_inv now st id u st2 r2 hm
      rw [hst]
    | error e => rfl
  case updateDoc now id u =>
    show (match memUpdateDocument now st id u with
      | .ok (st', _) => st'
      | .error _ => st).userId = st.userId
    cases hm : memUpdateDocument now st id u with
    | ok p =>
      obtain ⟨st2, r2⟩ := p
      obtain ⟨_, _, _, hst⟩ :=
        memUpdateDocument_inv now st id u st2 r2 hm
      rw [hst]
    | error e => rfl
  case updateInt id u =>
    show (match memUpdateInterview st id u with
      | .ok (st', _) => st'
      | .error _ => st).userId = st.userId
    cases hm : memUpdateInterview st id u with
    | ok p =>
      obtain ⟨st2, r2⟩ := p
      obtain ⟨_, _, _, hst⟩ :=
        memUpdateInterview_inv st id u st2 r2 hm
      rw [hst]
    | error e => rfl

theorem appIdsAssigned_eq (ops : List Op) : ∀ st : MemState,
    appIdsAssigned st ops =
      List.range' st.jobApplicationId (ops.countP Op.isCreateApp) := by
  induction ops with
  | nil => intro st; rfl
  | cons op ops ih =>
    intro st
    cases op <;>
      simp [appIdsAssigned, List.countP_cons, Op.isCreateApp, ih,
        execOp_jobApplicationId, List.range'_succ]

theorem docIdsAssigned_eq (ops : List Op) : ∀ st : MemState,
    docIdsAssigned st ops =
      List.range' st.documentId (ops.countP Op.isCreateDoc) := by
  induction ops with
  | nil => intro st; rfl
  | cons op ops ih =>
    intro st
    cases op <;>
      simp [docIdsAssigned, List.countP_cons, Op.isCreateDoc, ih,
        execOp_documentId, List.range'_succ]

theorem intIdsAssigned_eq (ops : List Op) : ∀ st : MemState,
    intIdsAssigned st ops =
      List.range' st.interviewId (ops.countP Op.isCreateInt) := by
  induction ops with
  | nil => intro st; rfl
  | cons op ops ih =>
    intro st
    cases op <;>
      simp [intIdsAssigned, List.countP_cons, Op.isCreateInt, ih,
        execOp_interviewId, List.range'_succ]

theorem userIdsAssigned_eq (ops : List Op) : ∀ st : MemState,
    userIdsAssigned st ops =
      List.range' st.userId (ops.countP Op.isCreateUser) := by
  induction ops with
  | nil => intro st; rfl
  | cons op ops ih =>
    intro st
    cases op <;>
      simp [userIdsAssigned, List.countP_cons, Op.isCreateUser, ih,
        execOp_userIdCounter, List.range'_succ]

theorem ratFloor_eq_intFloor (x : ℚ) : x.floor = ⌊x⌋ := by
  rw [Rat.floor_def, Rat.floor_def']

theorem computeStats_responseRate_eq (now : Nat) (apps : List JobApplication)
    (ivs : List Interview) :
    (computeStats now apps ivs).responseRate = specResponseRate64 apps := by
  show (if apps.length > 0 then
      (jsResponseRate
        ((apps.filter (fun a => a.status == some "interview")).length +
          (apps.filter (fun a => a.status == some "offer")).length)
        apps.length : ℤ)
    else 0) = specResponseRate64 apps
  unfold specResponseRate64
  rcases Nat.eq_zero_or_pos apps.length with h | h
  · simp [h]
  · rw [if_pos h, if_neg (Nat.pos_iff_ne_zero.mp h)]
    rw [List.countP_eq_length_filter, List.countP_eq_length_filter]

theorem computeStats_daysInSearch_eq (now : Nat) (apps : List JobApplication)
    (ivs : List Interview) :
    (computeStats now apps ivs).daysInSearch = specDaysInSearch now apps := by
  show (match apps.map (fun a => a.appliedDate) with
      | [] => 0
      | d :: ds =>
          mathFloorQ (((now : ℚ) - ((ds.foldl min d : Nat) : ℚ))
            / (1000 * 3600 * 24))) = specDaysInSearch now apps
  unfold specDaysInSearch
  cases hm : apps.map (fun a => a.appliedDate) with
  | nil => rfl
  | cons d ds =>
    rw [show (d :: ds).min? = some (ds.foldl min d) from rfl]
    unfold mathFloorQ
    simp only [ratFloor_eq_intFloor]
    norm_num

theorem patchApplicationRoute_owner (now : Nat) (st : MemState)
    (sessionU id : Nat) (body : UpdateJobApplication) (a : JobApplication)
    (ha : getJobApplicationById st id = some a) (hs : a.userId = sessionU) :
    patchApplicationRoute now st sessionU id body =
      (RouteResult.ok (mergeJobApplication now a body),
       { st with jobApplications :=
           setEntry st.jobApplications id (mergeJobApplication now a body) }) := by
  have ha' : lookupEntry st.jobApplications id = some a := ha
  have hmem : memUpdateJobApplication now st id body =
      Except.ok
        ({ st with jobApplications :=
             setEntry st.jobApplications id (mergeJobApplication now a body) },
         mergeJobApplication now a body) := by
    unfold memUpdateJobApplication
    rw [ha']
  unfold patchApplicationRoute getJobApplicationById
  rw [ha', hmem]
  simp [hs]

/-! ## Claim theorems -/

/-- C1, counterexample: PATCHing an application with the out-of-enum status
"bogus" does not fail with a 400 ValidationError — the route returns 200 with
the updated record, and the stored record now has status "bogus". -/
theorem patch_invalid_status_accepted_cex :
    (patchApplicationRoute 20 stOne 1 1 { status := some "bogus" }).1 =
      RouteResult.ok { appOne with status := some "bogus", updatedAt := 20 } ∧
    getJobApplicationById
      (patchApplicationRoute 20 stOne 1 1 { status := some "bogus" }).2 1 =
      some { appOne with status := some "bogus", updatedAt := 20 } := by
  exact ⟨rfl, rfl⟩

/-- C1 (amended): status is never validated against {applied, interview,
offer, rejected}.  The PATCH route stores any string status verbatim and
returns 200; the creation schema's status field (`z.string().optional()`)
accepts any string and rejects only non-string values; the in-memory create
stores whatever status the parsed payload carries. -/
theorem status_not_validated :
    (∀ (now : Nat) (st : MemState) (sessionU id : Nat) (s : String)
      (a : JobApplication), getJobApplicationById st id = some a →
      a.userId = sessionU →
      (patchApplicationRoute now st sessionU id { status := some s }).1 =
        RouteResult.ok (mergeJobApplication now a { status := some s }) ∧
      (mergeJobApplication now a { status := some s }).status = some s ∧
      getJobApplicationById
        (patchApplicationRoute now st sessionU id { status := some s }).2 id =
        some (mergeJobApplication now a { status := some s })) ∧
    (∀ s : String, insertStatusFieldAccepts (some (JsValue.str s)) = true) ∧
    insertStatusFieldAccepts (some (JsValue.num 7)) = false ∧
    (∀ (now : Nat) (st : MemState) (a : InsertJobApplication),
      ((memCreateJobApplication now st a).2).status = a.status) := by
  refine ⟨?_, fun s => rfl, rfl, fun now st a => rfl⟩
  intro now st sessionU id s a ha hs
  rw [patchApplicationRoute_owner now st sessionU id _ a ha hs]
  exact ⟨rfl, rfl, lookupEntry_setEntry_self _ _ _⟩

/-- C1 witness: the amended theorem applied to the one-application store and
the invalid status "withdrawn". -/
theorem status_not_validated_witness :
    (patchApplicationRoute 20 stOne 1 1 { status := some "withdrawn" }).1 =
      RouteResult.ok (mergeJobApplication 20 appOne { status := some "withdrawn" }) ∧
    (mergeJobApplication 20 appOne { status := some "withdrawn" }).status =
      some "withdrawn" ∧
    getJobApplicationById
      (patchApplicationRoute 20 stOne 1 1 { status := some "withdrawn" }).2 1 =
      some (mergeJobApplication 20 appOne { status := some "withdrawn" }) :=
  status_not_validated.1 20 stOne 1 1 "withdrawn" appOne rfl rfl

/-- C2: on every entity-scoped PATCH/DELETE, a missing id yields NotFound
(404) for every caller, and Forbidden (403) holds exactly when the entity
exists and its owner differs from the session user — so the existence check
precedes the ownership check. -/
theorem entity_scoped_responses (now : Nat) (st : MemState) (user id : Nat)
    (bodyA : UpdateJobApplication) (bodyD : UpdateDocument)
    (bodyI : UpdateInterview) :
    (getJobApplicationById st id = none →
      (patchApplicationRoute now st user id bodyA).1 = RouteResult.notFound ∧
      (deleteApplicationRoute st user id).1 = RouteResult.notFound) ∧
    (∀ a, getJobApplicationById st id = some a →
      ((patchApplicationRoute now st user id bodyA).1 = RouteResult.forbidden ↔
        a.userId ≠ user) ∧
      ((deleteApplicationRoute st user id).1 = RouteResult.forbidden ↔
        a.userId ≠ user)) ∧
    (getDocumentById st id = none →
      (patchDocumentRoute now st user id bodyD).1 = RouteResult.notFound ∧
      (deleteDocumentRoute st user id).1 = RouteResult.notFound) ∧
    (∀ d, getDocumentById st id = some d →
      ((patchDocumentRoute now st user id bodyD).1 = RouteResult.forbidden ↔
        d.userId ≠ user) ∧
      ((deleteDocumentRoute st user id).1 = RouteResult.forbidden ↔
        d.userId ≠ user)) ∧
    (getInterviewById st id = none →
      (patchInterviewRoute st user id bodyI).1 = RouteResult.notFound ∧
      (deleteInterviewRoute st user id).1 = RouteResult.notFound) ∧
    (∀ i, getInterviewById st id = some i →
      ((patchInterviewRoute st user id bodyI).1 = RouteResult.forbidden ↔
        i.userId ≠ user) ∧
      ((deleteInterviewRoute st user id).1 = RouteResult.forbidden ↔
        i.userId ≠ user)) := by
  refine ⟨fun h => ⟨?_, ?_⟩, fun a ha => ⟨?_, ?_⟩, fun h => ⟨?_, ?_⟩,
    fun d hd => ⟨?_, ?_⟩, fun h => ⟨?_, ?_⟩, fun i hi => ⟨?_, ?_⟩⟩
  · simp [patchApplicationRoute, h]
  · simp [deleteApplicationRoute, h]
  · by_cases hu : a.userId = user
    · simp only [patchApplicationRoute, ha, hu, ne_eq, not_true_eq_false,
        if_false, ite_false]
      constructor
      · intro hf
        exfalso
        revert hf
        split <;> simp
      · intro hf
        exact hf.elim
    · simp [patchApplicationRoute, ha, hu]
  · by_cases hu : a.userId = user
    · simp [deleteApplicationRoute, ha, hu]
    · simp [deleteApplicationRoute, ha, hu]
  · simp [patchDocumentRoute, h]
  · simp [deleteDocumentRoute, h]
  · by_cases hu : d.userId = user
    · simp only [patchDocumentRoute, hd, hu, ne_eq, not_true_eq_false,
        if_false, ite_false]
      constructor
      · intro hf
        exfalso
        revert hf
        split <;> simp
      · intro hf
        exact hf.elim
    · simp [patchDocumentRoute, hd, hu]
  · by_cases hu : d.userId = user
    · simp [deleteDocumentRoute, hd, hu]
    · simp [deleteDocumentRoute, hd, hu]
  · simp [patchInterviewRoute, h]
  · simp [deleteInterviewRoute, h]
  · by_cases hu : i.userId = user
    · simp only [patchInterviewRoute, hi, hu, ne_eq, not_true_eq_false,
        if_false, ite_false]
      constructor
      · intro hf
        exfalso
        revert hf
        split <;> simp
      · intro hf
        exact hf.elim
    · simp [patchInterviewRoute, hi, hu]
  · by_cases hu : i.userId = user
    · simp [deleteInterviewRoute, hi, hu]
    · simp [deleteInterviewRoute, hi, hu]

/-- C2 witness: in the one-application store, PATCHing the absent id 2 is
NotFound even for a stranger (user 7), and PATCHing id 1 as non-owner user 2
is Forbidden. -/
theorem entity_scoped_responses_witness :
    (patchApplicationRoute 20 stOne 7 2 {}).1 = RouteResult.notFound ∧
    ((patchApplicationRoute 20 stOne 2 1 {}).1 = RouteResult.forbidden ↔
      appOne.userId ≠ 2) :=
  ⟨((entity_scoped_responses 20 stOne 7 2 {} {} {}).1 rfl).1,
   ((entity_scoped_responses 20 stOne 2 1 {} {} {}).2.1 appOne rfl).1⟩

/-- C3: every create/update of an application or document (in both storage
implementations) sets `updatedAt` to the server clock, ignoring any
client-supplied `updatedAt` in the partial; consequently, whenever the clock
has not gone backwards since the stored `updatedAt`, the new `updatedAt` is
not smaller than the old one. -/
theorem updated_at_server_assigned :
    (∀ (now : Nat) (st : MemState) (a : InsertJobApplication),
      ((memCreateJobApplication now st a).2).updatedAt = now) ∧
    (∀ (now id : Nat) (a : InsertJobApplication),
      (pgCreateJobApplicationRow now id a).updatedAt = now) ∧
    (∀ (now : Nat) (st : MemState) (d : InsertDocument),
      ((memCreateDocument now st d).2).updatedAt = now) ∧
    (∀ (now id : Nat) (d : InsertDocument),
      (pgCreateDocumentRow now id d).updatedAt = now) ∧
    (∀ (now : Nat) (a : JobApplication) (u : UpdateJobApplication),
      (mergeJobApplication now a u).updatedAt = now) ∧
    (∀ (now : Nat) (row : JobApplication) (u : UpdateJobApplication),
      (pgUpdateJobApplicationRow now row u).updatedAt = now) ∧
    (∀ (now : Nat) (d : Document) (u : UpdateDocument),
      (mergeDocument now d u).updatedAt = now) ∧
    (∀ (now : Nat) (row : Document) (u : UpdateDocument),
      (pgUpdateDocumentRow now row u).updatedAt = now) ∧
    (∀ (now : Nat) (st : MemState) (id : Nat) (u : UpdateJobApplication)
      (st' : MemState) (r : JobApplication),
      memUpdateJobApplication now st id u = .ok (st', r) →
      r.updatedAt = now ∧ getJobApplicationById st' id = some r) ∧
    (∀ (now : Nat) (st : MemState) (id : Nat) (u : UpdateDocument)
      (st' : MemState) (r : Document),
      memUpdateDocument now st id u = .ok (st', r) →
      r.updatedAt = now ∧ getDocumentById st' id = some r) ∧
    (∀ (now : Nat) (st : MemState) (id : Nat) (u : UpdateJobApplication)
      (st' : MemState) (r : JobApplication) (a : JobApplication),
      getJobApplicationById st id = some a → a.updatedAt ≤ now →
      memUpdateJobApplication now st id u = .ok (st', r) →
      a.updatedAt ≤ r.updatedAt) := by
  refine ⟨fun now st a => rfl, fun now id a => rfl, fun now st d => rfl,
    fun now id d => rfl, fun now a u => rfl, fun now row u => rfl,
    fun now d u => rfl, fun now row u => rfl, ?_, ?_, ?_⟩
  · intro now st id u st' r h
    obtain ⟨app, hl, hr, hst⟩ := memUpdateJobApplication_inv now st id u st' r h
    subst hr
    subst hst
    exact ⟨rfl, lookupEntry_setEntry_self _ _ _⟩
  · intro now st id u st' r h
    obtain ⟨d, hl, hr, hst⟩ := memUpdateDocument_inv now st id u st' r h
    subst hr
    subst hst
    exact ⟨rfl, lookupEntry_setEntry_self _ _ _⟩
  · intro now st id u st' r a ha hle h
    obtain ⟨a', hl, hr, hst⟩ := memUpdateJobApplication_inv now st id u st' r h
    subst hr
    exact hle

/-- C3 witness: updating application 1 of the one-application store at time
30 with a client-supplied `updatedAt` of 999 stores `updatedAt = 30`. -/
theorem updated_at_server_assigned_witness :
    appOneUpd.updatedAt = 30 ∧ getJobApplicationById stOneUpd 1 = some appOneUpd :=
  updated_at_server_assigned.2.2.2.2.2.2.2.2.1 30 stOne 1
    { updatedAt := some 999 } stOneUpd appOneUpd rfl

/-- C4, code bug: `PostgresStorage.updateJobApplication` never puts `notes`
in its `SET` clause (and its `INSERT` omits the column), so a partial update
carrying `notes` leaves the stored notes unchanged — while the in-memory
merge, the schema and the spec all treat `notes` as updatable.  `updatedAt`
is still refreshed on the same call. -/
theorem pg_update_drops_notes :
    (pgUpdateJobApplicationRow 40 rowNotes { notes := some (some "new note") }).notes =
      some "old note" ∧
    (pgUpdateJobApplicationRow 40 rowNotes { notes := some (some "new note") }).updatedAt = 40 ∧
    (mergeJobApplication 40 rowNotes { notes := some (some "new note") }).notes =
      some "new note" ∧
    (pgCreateJobApplicationRow 10 1 { insertAcme with notes := some "imported" }).notes =
      none := by
  exact ⟨rfl, rfl, rfl, rfl⟩

set_option maxRecDepth 4000 in
/-- C5, counterexample: for user 1 of the 200-application store (29 with
status "interview"), the stats route returns responseRate 14 — the binary64
product `(29/200)*100` is 14.499999999999998, below the half — while the
claimed exact formula `round((29/200)*100) = round(14.5)` gives 15. -/
theorem stats_response_rate_float_cex :
    (statsRoute 0 st200 1).responseRate = 14 ∧
    specResponseRate (getJobApplicationsByUserId st200 1) = 15 ∧
    (statsRoute 0 st200 1).responseRate ≠
      specResponseRate (getJobApplicationsByUserId st200 1) := by
  have hA : (statsRoute 0 st200 1).responseRate = 14 := by decide
  have hB : specResponseRate (getJobApplicationsByUserId st200 1) = 15 := by
    have h1 : (getJobApplicationsByUserId st200 1).countP
        (fun a => a.status == some "interview") = 29 := by decide
    have h2 : (getJobApplicationsByUserId st200 1).countP
        (fun a => a.status == some "offer") = 0 := by decide
    have h3 : (getJobApplicationsByUserId st200 1).length = 200 := by decide
    unfold specResponseRate
    rw [h1, h2, h3]
    norm_num [round_eq]
  exact ⟨hA, hB, by rw [hA, hB]; decide⟩

/-- C5 (amended): the stats endpoint's `responseRate` is `Math.round` of the
binary64 evaluation of `((countInterview + countOffer) / total) * 100` —
which differs from the exact `round((cI + cO)/total × 100)` at exact
half-boundary ratios whose correctly rounded double product lands below the
half — while `daysInSearch = floor((now − min appliedDate) / 86400000)`
holds exactly as claimed, and a user with no applications gets all-zero
statistics. -/
theorem compute_stats_formulas (now : Nat) (st : MemState) (user : Nat) :
    (statsRoute now st user).responseRate =
      specResponseRate64 (getJobApplicationsByUserId st user) ∧
    (statsRoute now st user).daysInSearch =
      specDaysInSearch now (getJobApplicationsByUserId st user) ∧
    (getJobApplicationsByUserId st user = [] →
      (statsRoute now st user).totalApplications = 0 ∧
      (statsRoute now st user).responseRate = 0 ∧
      (statsRoute now st user).daysInSearch = 0 ∧
      (statsRoute now st user).applicationsByStatus = ⟨0, 0, 0, 0⟩) := by
  refine ⟨computeStats_responseRate_eq now _ _, computeStats_daysInSearch_eq now _ _, ?_⟩
  intro h
  unfold statsRoute
  rw [h]
  exact ⟨rfl, rfl, rfl, rfl⟩

/-- C5 witness: the zero-application case of the stats theorem at the empty
store. -/
theorem compute_stats_formulas_witness :
    (statsRoute 5 MemState.init 1).totalApplications = 0 ∧
    (statsRoute 5 MemState.init 1).responseRate = 0 ∧
    (statsRoute 5 MemState.init 1).daysInSearch = 0 ∧
    (statsRoute 5 MemState.init 1).applicationsByStatus = ⟨0, 0, 0, 0⟩ :=
  (compute_stats_formulas 5 MemState.init 1).2.2 rfl

/-- C6, code bug: creating from a payload with no status leaves the stored
in-memory record's status `undefined` (`none`) instead of "applied" —
`MemStorage.createJobApplication` applies no default — while
`PostgresStorage.createJobApplication` (`application.status || 'applied'`)
does default it. -/
theorem create_missing_status_divergence :
    ((memCreateJobApplication 10 MemState.init insertAcme).2).status = none ∧
    getJobApplicationById (memCreateJobApplication 10 MemState.init insertAcme).1 1 =
      some (memCreateJobApplication 10 MemState.init insertAcme).2 ∧
    (pgCreateJobApplicationRow 10 1 insertAcme).status = some "applied" := by
  exact ⟨rfl, rfl, rfl⟩

/-- C7, code bug: after create-application, create-interview, delete-application,
the in-memory store no longer has application 1 but still holds the interview
whose `jobApplicationId` is 1 — `MemStorage.deleteJobApplication` removes
only the application, so the cascade the spec assumes does not happen. -/
theorem delete_application_leaves_dangling_interview :
    getJobApplicationById (runOps MemState.init opsDangling) 1 = none ∧
    getInterviewById (runOps MemState.init opsDangling) 1 = some ivOne ∧
    ivOne.jobApplicationId = 1 := by
  exact ⟨rfl, rfl, rfl⟩

/-- C8: along every operation sequence from the initial store, the ids handed
out by create are, per entity kind, strictly increasing — hence unique, and
never reused even after deletions (deletes never touch the counters). -/
theorem create_ids_strictly_increasing (ops : List Op) :
    (appIdsAssigned MemState.init ops).Pairwise (· < ·) ∧
    (docIdsAssigned MemState.init ops).Pairwise (· < ·) ∧
    (intIdsAssigned MemState.init ops).Pairwise (· < ·) ∧
    (userIdsAssigned MemState.init ops).Pairwise (· < ·) := by
  refine ⟨?_, ?_, ?_, ?_⟩
  · rw [appIdsAssigned_eq ops MemState.init]
    exact List.pairwise_lt_range' _ _
  · rw [docIdsAssigned_eq ops MemState.init]
    exact List.pairwise_lt_range' _ _
  · rw [intIdsAssigned_eq ops MemState.init]
    exact List.pairwise_lt_range' _ _
  · rw [userIdsAssigned_eq ops MemState.init]
    exact List.pairwise_lt_range' _ _

/-- C9: store-level delete is idempotent for every entity kind: deleting an
absent id returns the store unchanged (and never throws — the function is
total), and deleting twice equals deleting once. -/
theorem delete_idempotent (st : MemState) (id : Nat) :
    (getJobApplicationById st id = none → memDeleteJobApplication st id = st) ∧
    memDeleteJobApplication (memDeleteJobApplication st id) id =
      memDeleteJobApplication st id ∧
    (getDocumentById st id = none → memDeleteDocument st id = st) ∧
    memDeleteDocument (memDeleteDocument st id) id = memDeleteDocument st id ∧
    (getInterviewById st id = none → memDeleteInterview st id = st) ∧
    memDeleteInterview (memDeleteInterview st id) id =
      memDeleteInterview st id := by
  refine ⟨fun h => ?_, ?_, fun h => ?_, ?_, fun h => ?_, ?_⟩
  · show { st with jobApplications := eraseEntry st.jobApplications id } = st
    rw [eraseEntry_of_lookupEntry_none _ _ h]
  · simp [memDeleteJobApplication, eraseEntry_idem]
  · show { st with documents := eraseEntry st.documents id } = st
    rw [eraseEntry_of_lookupEntry_none _ _ h]
  · simp [memDeleteDocument, eraseEntry_idem]
  · show { st with interviews := eraseEntry st.interviews id } = st
    rw [eraseEntry_of_lookupEntry_none _ _ h]
  · simp [memDeleteInterview, eraseEntry_idem]

/-- C9 witness: deleting the absent id 1 from the empty store leaves it
unchanged, for all three entity kinds. -/
theorem delete_idempotent_witness :
    memDeleteJobApplication MemState.init 1 = MemState.init ∧
    memDeleteDocument MemState.init 1 = MemState.init ∧
    memDeleteInterview MemState.init 1 = MemState.init :=
  ⟨(delete_idempotent MemState.init 1).1 rfl,
   (delete_idempotent MemState.init 1).2.2.1 rfl,
   (delete_idempotent MemState.init 1).2.2.2.2.1 rfl⟩

/-- C10: the in-memory update copies every key present in the partial,
including `userId`: a partial with a `userId` key rewrites the record's
owner, and the PATCH route (which forwards `req.body` unfiltered) therefore
lets an owner hand the record to any user id. -/
theorem update_copies_user_id :
    (∀ (now : Nat) (st : MemState) (id : Nat) (u : UpdateJobApplication)
      (v : Nat) (st' : MemState) (r : JobApplication), u.userId = some v →
      memUpdateJobApplication now st id u = .ok (st', r) →
      r.userId = v ∧ getJobApplicationById st' id = some r) ∧
    (∀ (now : Nat) (st : MemState) (sessionU id : Nat)
      (body : UpdateJobApplication) (v : Nat) (a : JobApplication),
      getJobApplicationById st id = some a → a.userId = sessionU →
      body.userId = some v →
      (patchApplicationRoute now st sessionU id body).1 =
        RouteResult.ok (mergeJobApplication now a body) ∧
      (mergeJobApplication now a body).userId = v ∧
      getJobApplicationById (patchApplicationRoute now st sessionU id body).2 id =
        some (mergeJobApplication now a body)) := by
  constructor
  · intro now st id u v st' r hv h
    obtain ⟨a, hl, hr, hst⟩ := memUpdateJobApplication_inv now st id u st' r h
    subst hr
    subst hst
    refine ⟨?_, lookupEntry_setEntry_self _ _ _⟩
    show u.userId.getD a.userId = v
    rw [hv]
    rfl
  · intro now st sessionU id body v a ha hs hv
    rw [patchApplicationRoute_owner now st sessionU id body a ha hs]
    refine ⟨rfl, ?_, lookupEntry_setEntry_self _ _ _⟩
    show body.userId.getD a.userId = v
    rw [hv]
    rfl

/-- C10 witness: PATCHing application 1 (owner 1) with body `{userId: 2}`
succeeds and the stored record's owner becomes user 2. -/
theorem update_copies_user_id_witness :
    (patchApplicationRoute 25 stOne 1 1 { userId := some 2 }).1 =
      RouteResult.ok (mergeJobApplication 25 appOne { userId := some 2 }) ∧
    (mergeJobApplication 25 appOne { userId := some 2 }).userId = 2 ∧
    getJobApplicationById
      (patchApplicationRoute 25 stOne 1 1 { userId := some 2 }).2 1 =
      some (mergeJobApplication 25 appOne { userId := some 2 }) :=
  update_copies_user_id.2 25 stOne 1 1 { userId := some 2 } 2 appOne rfl rfl rfl

end CareerCompass
